import Mathlib

/-!
A verification development for the `typhoon-detective-game` repository.

The repository is a Python application whose core (per its specification) is a
response-normalization and persistence layer: it extracts a JSON payload from
free-form LLM output, parses it, maps it onto domain records with alias and
repair rules, and persists case bundles in a SQLite store.

This file gives a shallow embedding of that core, translated from
`src/lib/clue_analyzer.py`, `src/lib/suspect_analyzer.py`,
`src/lib/case_solver.py`, `src/lib/case_generator.py`,
`src/lib/database.py` and `src/api/python/solve-case.py`, and proves the
specification's claims about it.

Modelling conventions:
* Python's dynamically-typed JSON payloads are the inductive `JValue`
  (JSON floats are not modelled; no claim exercises them — the JSON reader
  below simply fails on a float literal, which only makes it land in the same
  degraded-default branch the real code reaches for other unparseable text).
* A Python computation that may raise is a `PyRes α`; the `exn` payload is a
  short rendering of the exception (`"ValueError: …"`, `"TypeError: …"`,
  `"AttributeError: …"`).
* The OpenAI completion call (`fetch_openai_completion`) is an input of type
  `Except String String`: `.error` is the call raising, `.ok` is the raw
  response text.  Prompt construction only feeds that call and is not
  modelled.
* `uuid.uuid4()` is modelled by an identifier supply `Nat → String`,
  consumed in the same order as the Python constructor calls.
-/

/-- A JSON-like dynamic Python value (dict, list, str, int, bool, None). -/
inductive JValue where
  | jnull : JValue
  | jbool (b : Bool) : JValue
  | jint (n : Int) : JValue
  | jstr (s : String) : JValue
  | jarr (elems : List JValue) : JValue
  | jobj (fields : List (String × JValue)) : JValue

/-- Result of a Python computation: a value, or a raised exception. -/
inductive PyRes (α : Type) where
  | ok (val : α) : PyRes α
  | exn (msg : String) : PyRes α

def PyRes.map {α β : Type} (f : α → β) : PyRes α → PyRes β
  | .ok v => .ok (f v)
  | .exn m => .exn m

/-- Model of `dict.get(key)` on the assoc-list representation of a Python dict.
Python dicts keep the last binding for a repeated key, so the lookup
returns the last matching entry. -/
def objFind : List (String × JValue) → String → Option JValue
  | [], _ => none
  | (k, v) :: rest, key =>
    match objFind rest key with
    | some w => some w
    | none => if k == key then some v else none

/-- Model of `dict.get(key, default)`. -/
def pyGet (fields : List (String × JValue)) (key : String) (dflt : JValue) : JValue :=
  (objFind fields key).getD dflt

/-- Python truthiness of a JSON-like value. -/
def pyTruthy : JValue → Bool
  | .jnull => false
  | .jbool b => b
  | .jint n => n != 0
  | .jstr s => !s.isEmpty
  | .jarr xs => !xs.isEmpty
  | .jobj fs => !fs.isEmpty

/-- Model of `str.lower()` (the source strings are ASCII). -/
def pyLower (s : String) : String := String.mk (s.toList.map Char.toLower)

/-- Is `p` an initial segment of `l`? -/
def leadsWith : List Char → List Char → Bool
  | [], _ => true
  | _ :: _, [] => false
  | a :: as, b :: bs => a == b && leadsWith as bs

/-- Does `needle` occur contiguously inside `hay`?  (Python `needle in hay`;
in particular the empty needle occurs in every string.) -/
def hasSub (needle : List Char) : List Char → Bool
  | [] => needle.isEmpty
  | c :: rest => leadsWith needle (c :: rest) || hasSub needle rest

/-- Python substring test `needle in hay`. -/
def strIn (needle hay : String) : Bool := hasSub needle.toList hay.toList

/-- Index of the first occurrence of `needle` in `hay`, if any. -/
def findSub (needle : List Char) : List Char → Option Nat
  | [] => if needle.isEmpty then some 0 else none
  | c :: rest =>
    if leadsWith needle (c :: rest) then some 0
    else (findSub needle rest).map (· + 1)

/-- Index of the first occurrence of a character. -/
def firstIdxOf (c : Char) : List Char → Option Nat
  | [] => none
  | x :: rest =>
    if x == c then some 0
    else (firstIdxOf c rest).map (· + 1)

/-- Index of the last occurrence of a character. -/
def lastIdxOf (c : Char) : List Char → Option Nat
  | [] => none
  | x :: rest =>
    match lastIdxOf c rest with
    | some i => some (i + 1)
    | none => if x == c then some 0 else none

/-- Python `int(s)` for our purposes: optional surrounding whitespace,
an optional sign, then at least one ASCII digit; `none` models the
`ValueError` branch. -/
def digitsToNat : List Char → Option Nat
  | [] => none
  | cs => go cs 0
where
  go : List Char → Nat → Option Nat
    | [], acc => some acc
    | c :: rest, acc =>
      if c.isDigit then go rest (acc * 10 + (c.toNat - 48)) else none

def isSpaceChar (c : Char) : Bool :=
  c == ' ' || c == '\t' || c == '\n' || c == '\r' || c == '\x0b' || c == '\x0c'

def pyInt (s : String) : Option Int :=
  match ((s.toList.dropWhile isSpaceChar).reverse.dropWhile isSpaceChar).reverse with
  | '-' :: rest => (digitsToNat rest).map (fun n => -(n : Int))
  | '+' :: rest => (digitsToNat rest).map (fun n => (n : Int))
  | cs => (digitsToNat cs).map (fun n => (n : Int))

/-! ## JSON extraction (`parse_json_response`, step 1)

All four `parse_json_response` functions run the same `re.search` chain:
1. `` ```json\n([\s\S]*?)\n``` `` — first occurrence of the tagged fence
   opener, lazily up to the first subsequent `` \n``` ``;
2. `` ```([\s\S]*?)``` `` — first fence opener, lazily up to the next fence;
3. `({[\s\S]*})` — greedily from the first `{` to the last `}`;
falling back to the whole response when nothing matches. -/

def tryFence1 (cs : List Char) : Option (List Char) :=
  match findSub ("```json\n".toList) cs with
  | none => none
  | some p =>
    let rest := cs.drop (p + 8)
    match findSub ("\n```".toList) rest with
    | none => none
    | some j => some (rest.take j)

def tryFence2 (cs : List Char) : Option (List Char) :=
  match findSub ("```".toList) cs with
  | none => none
  | some p =>
    let rest := cs.drop (p + 3)
    match findSub ("```".toList) rest with
    | none => none
    | some j => some (rest.take j)

def tryBraces (cs : List Char) : Option (List Char) :=
  match firstIdxOf '{' cs, lastIdxOf '}' cs with
  | some p, some q => if p < q then some ((cs.drop p).take (q + 1 - p)) else none
  | _, _ => none

def extractJson (response : String) : String :=
  let cs := response.toList
  match tryFence1 cs with
  | some content => String.mk content
  | none =>
    match tryFence2 cs with
    | some content => String.mk content
    | none =>
      match tryBraces cs with
      | some content => String.mk content
      | none => response

/-! ## JSON parsing (`json.loads`)

A recursive-descent reader for the JSON fragment the claims exercise
(null/bool/int/string/array/object).  Escapes `\uXXXX` and float literals
are rejected rather than decoded (no claim uses them; rejection only means
the degraded-default branch is taken, exactly as for any other
`JSONDecodeError`). -/

def skipWs : List Char → List Char
  | [] => []
  | c :: rest =>
    if c == ' ' || c == '\t' || c == '\n' || c == '\r' then skipWs rest else c :: rest

/-- Parse a JSON string body (after the opening quote), returning the decoded
characters and the remainder after the closing quote.  Raw control
characters are rejected, as in `json.loads`'s strict mode. -/
def parseStringBody : List Char → Option (List Char × List Char)
  | [] => none
  | '"' :: rest => some ([], rest)
  | '\\' :: e :: rest =>
    let dec : Option Char :=
      if e == '"' then some '"'
      else if e == '\\' then some '\\'
      else if e == '/' then some '/'
      else if e == 'n' then some '\n'
      else if e == 't' then some '\t'
      else if e == 'r' then some '\r'
      else if e == 'b' then some (Char.ofNat 8)
      else if e == 'f' then some (Char.ofNat 12)
      else none
    match dec with
    | some c => (parseStringBody rest).map (fun p => (c :: p.1, p.2))
    | none => none
  | c :: rest =>
    if c.toNat < 32 then none
    else (parseStringBody rest).map (fun p => (c :: p.1, p.2))

/-- Parse a run of digits as a JSON integer (leading-zero rule of JSON:
`0` alone or a nonzero first digit); a following `.`, `e` or `E` is a float
literal, which this reader rejects. -/
def parseIntLit (cs : List Char) : Option (Int × List Char) :=
  match cs with
  | [] => none
  | c :: _ =>
    if !c.isDigit then none
    else
      let digits := cs.takeWhile Char.isDigit
      let rest := cs.dropWhile Char.isDigit
      if digits.length > 1 && c == '0' then none
      else
        match rest with
        | '.' :: _ => none
        | 'e' :: _ => none
        | 'E' :: _ => none
        | _ => (digitsToNat digits).map (fun n => ((n : Int), rest))

mutual

def parseValue : Nat → List Char → Option (JValue × List Char)
  | 0, _ => none
  | Nat.succ fuel, cs =>
    match skipWs cs with
    | [] => none
    | '"' :: rest =>
      (parseStringBody rest).map (fun p => (JValue.jstr (String.mk p.1), p.2))
    | '{' :: rest =>
      (match skipWs rest with
       | '}' :: r2 => some (JValue.jobj [], r2)
       | r1 => (parseMembers fuel r1).map (fun p => (JValue.jobj p.1, p.2)))
    | '[' :: rest =>
      (match skipWs rest with
       | ']' :: r2 => some (JValue.jarr [], r2)
       | r1 => (parseElems fuel r1).map (fun p => (JValue.jarr p.1, p.2)))
    | 't' :: rest =>
      if leadsWith ("rue".toList) rest then some (JValue.jbool true, rest.drop 3) else none
    | 'f' :: rest =>
      if leadsWith ("alse".toList) rest then some (JValue.jbool false, rest.drop 4) else none
    | 'n' :: rest =>
      if leadsWith ("ull".toList) rest then some (JValue.jnull, rest.drop 3) else none
    | '-' :: rest =>
      (parseIntLit rest).map (fun p => (JValue.jint (-p.1), p.2))
    | other =>
      (parseIntLit other).map (fun p => (JValue.jint p.1, p.2))

def parseMembers : Nat → List Char → Option (List (String × JValue) × List Char)
  | 0, _ => none
  | Nat.succ fuel, cs =>
    match skipWs cs with
    | '"' :: rest =>
      match parseStringBody rest with
      | none => none
      | some (k, r1) =>
        match skipWs r1 with
        | ':' :: r2 =>
          match parseValue fuel r2 with
          | none => none
          | some (v, r3) =>
            match skipWs r3 with
            | ',' :: r4 =>
              (parseMembers fuel r4).map (fun p => ((String.mk k, v) :: p.1, p.2))
            | '}' :: r4 => some ([(String.mk k, v)], r4)
            | _ => none
        | _ => none
    | _ => none

def parseElems : Nat → List Char → Option (List JValue × List Char)
  | 0, _ => none
  | Nat.succ fuel, cs =>
    match parseValue fuel cs with
    | none => none
    | some (v, r1) =>
      match skipWs r1 with
      | ',' :: r2 => (parseElems fuel r2).map (fun p => (v :: p.1, p.2))
      | ']' :: r2 => some ([v], r2)
      | _ => none

end

/-- Model of `json.loads`: parse the whole candidate text as one JSON value;
`none` is the `JSONDecodeError` branch. -/
def jsonLoads (s : String) : Option JValue :=
  let cs := s.toList
  match parseValue (cs.length + 1) cs with
  | some (v, rest) => if (skipWs rest).isEmpty then some v else none
  | none => none

theorem extract_hello : extractJson "not json" = "not json" := rfl

theorem loads_hello : jsonLoads "not json" = none := rfl

theorem loads_obj :
    jsonLoads "\x7b\"a\": 1, \"b\": [true, null]\x7d" =
      some (.jobj [("a", .jint 1), ("b", .jarr [.jbool true, .jnull])]) := rfl

theorem extract_fence :
    extractJson "text ```json\n\x7b\"x\": 2\x7d\n``` tail" = "\x7b\"x\": 2\x7d" := rfl

theorem extract_braces :
    extractJson "before \x7b\"x\": 2\x7d after" = "\x7b\"x\": 2\x7d" := rfl

/-! ## Domain record types (`src/lib/types.py`)

Only the fields the persistence and analysis layers read are kept.
The dataclasses declare `str`/`bool` types and all call sites construct
them with such values, so `Case`/`Clue`/`Suspect` carry `String`/`Bool`
fields.  The analysis result records, by contrast, receive raw payload
values straight from the normalizer, so their payload-derived fields are
`JValue`. -/

structure Case where
  id : String
  title : String
  description : String
  summary : String
  difficulty : String
  solved : Bool
  archived : Bool
  location : String
  dateTime : String
  imageUrl : String
  isLLMGenerated : Bool

structure Clue where
  id : String
  caseId : String
  title : String
  description : String
  location : String
  type : String
  discovered : Bool
  examined : Bool
  relevance : String
  emoji : String

structure Suspect where
  id : String
  caseId : String
  name : String
  description : String
  background : String
  motive : String
  alibi : String
  isGuilty : Bool
  interviewed : Bool
  emoji : String

structure ClueAnalysisConnection where
  suspectId : String
  connectionType : JValue
  description : JValue

structure ClueAnalysis where
  summary : JValue
  connections : List ClueAnalysisConnection
  nextSteps : List JValue

structure SuspectAnalysisConnection where
  clueId : String
  connectionType : JValue
  description : JValue

structure SuspectAnalysis where
  suspectId : String
  trustworthiness : JValue
  inconsistencies : List JValue
  connections : List SuspectAnalysisConnection
  suggestedQuestions : List JValue

structure CaseSolution where
  solved : Bool
  culpritId : String
  reasoning : String
  evidenceIds : List String
  narrative : JValue

/-! ## The four `parse_json_response` variants

`clue_analyzer.parse_json_response`, `suspect_analyzer.parse_json_response`
and `case_solver.parse_json_response` catch `JSONDecodeError` and return a
task-specific degraded default, so they are total; `case_generator.
parse_json_response` re-raises it as `ValueError`, so it is a `PyRes`. -/

/-- Source `src/lib/clue_analyzer.py`, `parse_json_response` (lines 129-144). -/
def clue_parse_json_response (response : String) : JValue :=
  match jsonLoads (extractJson response) with
  | some v => v
  | none =>
    .jobj [("summary", .jstr response), ("connections", .jarr []), ("nextSteps", .jarr [])]

/-- Source `src/lib/suspect_analyzer.py`, `parse_json_response` (lines 193-211). -/
def suspect_parse_json_response (response : String) : JValue :=
  match jsonLoads (extractJson response) with
  | some v => v
  | none =>
    .jobj [("trustworthiness", .jint 50), ("inconsistencies", .jarr []),
           ("connections", .jarr []), ("suggestedQuestions", .jarr [])]

/-- Source `src/lib/case_solver.py`, `parse_json_response` (lines 143-156). -/
def solver_parse_json_response (response : String) : JValue :=
  match jsonLoads (extractJson response) with
  | some v => v
  | none => .jobj [("narrative", .jstr response)]

/-- Source `src/lib/case_generator.py`, `parse_json_response` (lines 141-164):
on `JSONDecodeError` it raises `ValueError("Failed to parse the generated
case data")` instead of returning a degraded default. -/
def casegen_parse_json_response (response : String) : PyRes JValue :=
  match jsonLoads (extractJson response) with
  | some v => .ok v
  | none => .exn "ValueError: Failed to parse the generated case data"

/-! ## Clue-analysis formatting (`src/lib/clue_analyzer.py`) -/

/-- The fuzzy-match predicate from `format_clue_analysis` line 161:
`s.name.lower() in suspect_name.lower() or suspect_name.lower() in
s.name.lower()`. -/
def suspect_name_match (suspect_name : String) (s : Suspect) : Bool :=
  strIn (pyLower s.name) (pyLower suspect_name) || strIn (pyLower suspect_name) (pyLower s.name)

/-- Model of `next((s for s in suspects if …), None)`: first fuzzy match wins. -/
def find_matching_suspect (suspects : List Suspect) (suspect_name : String) : Option Suspect :=
  suspects.find? (suspect_name_match suspect_name)

/-- One iteration of the connections loop (lines 156-170): reading the
name aliases, resolving it, and either keeping or silently dropping the
connection.  A non-dict entry raises at `conn.get`; a non-string name
raises at `.lower()`. -/
def format_clue_connection (suspects : List Suspect) (conn : JValue) :
    PyRes (Option ClueAnalysisConnection) :=
  match conn with
  | .jobj fields =>
    match pyGet fields "suspect" (pyGet fields "suspectName" (.jstr "")) with
    | .jstr suspect_name =>
      match find_matching_suspect suspects suspect_name with
      | some s =>
        .ok (some ⟨s.id, pyGet fields "connectionType" (pyGet fields "type" (.jstr "related")),
                   pyGet fields "description" (.jstr "")⟩)
      | none => .ok none
    | _ => .exn "AttributeError: lower"
  | _ => .exn "AttributeError: get"

def process_clue_connections (suspects : List Suspect) : List JValue →
    PyRes (List ClueAnalysisConnection)
  | [] => .ok []
  | c :: rest =>
    match format_clue_connection suspects c with
    | .exn m => .exn m
    | .ok none => process_clue_connections suspects rest
    | .ok (some conn) => (process_clue_connections suspects rest).map (conn :: ·)

/-- The scalar-to-list coercion applied to `nextSteps`, `inconsistencies`
and `suggestedQuestions`: `[x] if x else []` when `x` is not a list. -/
def coerce_to_list (v : JValue) : List JValue :=
  match v with
  | .jarr xs => xs
  | other => if pyTruthy other then [other] else []

/-- Source `src/lib/clue_analyzer.py`, `format_clue_analysis` (lines 147-184).
A non-dict payload raises at `data.get` (caught by `analyze_clue`);
a non-list `connections` value is skipped by the `isinstance` guard. -/
def format_clue_analysis (data : JValue) (suspects : List Suspect) : PyRes ClueAnalysis :=
  match data with
  | .jobj fields =>
    let summary := pyGet fields "summary" (.jstr "No analysis available")
    let res :=
      match pyGet fields "connections" (.jarr []) with
      | .jarr conns => process_clue_connections suspects conns
      | _ => .ok []
    match res with
    | .exn m => .exn m
    | .ok connections =>
      let next_steps := coerce_to_list (pyGet fields "nextSteps" (.jarr []))
      let next_steps := if next_steps.isEmpty then [.jstr "Continue investigating"] else next_steps
      .ok ⟨summary, connections, next_steps⟩
  | _ => .exn "AttributeError: get"

/-- The fallback analysis from `analyze_clue`'s `except` branch
(lines 119-126). -/
def fallback_clue_analysis : ClueAnalysis :=
  ⟨.jstr "This is an important clue that can help solve the mystery.", [],
   [.jstr "Continue investigating", .jstr "Look for more clues"]⟩

/-- Source `src/lib/clue_analyzer.py`, `analyze_clue` (lines 45-126), with the
completion call abstracted to its outcome.  Any exception inside the
`try` (gateway failure or a formatting error) yields the fallback. -/
def analyze_clue (gateway : Except String String) (suspects : List Suspect) : ClueAnalysis :=
  match gateway with
  | .error _ => fallback_clue_analysis
  | .ok response =>
    match format_clue_analysis (clue_parse_json_response response) suspects with
    | .ok a => a
    | .exn _ => fallback_clue_analysis

/-! ## Suspect-analysis formatting (`src/lib/suspect_analyzer.py`) -/

/-- Lines 221-228 of `format_suspect_analysis`: coerce the raw
`trustworthiness` payload value (default 50) and clamp with
`max(0, min(100, …))`.  Python's `min`/`max` compare the raw object with
the `int` bounds: a string was already replaced by the `isinstance`
branch, a bool compares as its numeric value (CPython returns the original
`True` object from `min(100, True)`/`max(0, True)`, and `0` from
`max(0, False)`), and any other type raises `TypeError`. -/
def normalize_trustworthiness (v : Option JValue) : PyRes JValue :=
  let t := v.getD (.jint 50)
  let t :=
    match t with
    | .jstr s =>
      match pyInt s with
      | some n => JValue.jint n
      | none => JValue.jint 50
    | other => other
  match t with
  | .jint n => .ok (.jint (max 0 (min 100 n)))
  | .jbool b => .ok (if b then .jbool true else .jint 0)
  | _ => .exn "TypeError: comparison between the value and int not supported"

/-- The clue-title fuzzy-match predicate from line 245. -/
def clue_title_match (clue_title : String) (c : Clue) : Bool :=
  strIn (pyLower c.title) (pyLower clue_title) || strIn (pyLower clue_title) (pyLower c.title)

def find_matching_clue (clues : List Clue) (clue_title : String) : Option Clue :=
  clues.find? (clue_title_match clue_title)

/-- One iteration of the suspect-analysis connections loop (lines 240-254);
note the alias order `type`/`connectionType` is reversed relative to the
clue analyzer. -/
def format_suspect_connection (clues : List Clue) (conn : JValue) :
    PyRes (Option SuspectAnalysisConnection) :=
  match conn with
  | .jobj fields =>
    match pyGet fields "clue" (pyGet fields "clueTitle" (.jstr "")) with
    | .jstr clue_title =>
      match find_matching_clue clues clue_title with
      | some c =>
        .ok (some ⟨c.id, pyGet fields "type" (pyGet fields "connectionType" (.jstr "related")),
                   pyGet fields "description" (.jstr "")⟩)
      | none => .ok none
    | _ => .exn "AttributeError: lower"
  | _ => .exn "AttributeError: get"

def process_suspect_connections (clues : List Clue) : List JValue →
    PyRes (List SuspectAnalysisConnection)
  | [] => .ok []
  | c :: rest =>
    match format_suspect_connection clues c with
    | .exn m => .exn m
    | .ok none => process_suspect_connections clues rest
    | .ok (some conn) => (process_suspect_connections clues rest).map (conn :: ·)

/-- Source `src/lib/suspect_analyzer.py`, `format_suspect_analysis`
(lines 214-270). -/
def format_suspect_analysis (data : JValue) (clues : List Clue) (suspect_id : String) :
    PyRes SuspectAnalysis :=
  match data with
  | .jobj fields =>
    match normalize_trustworthiness (objFind fields "trustworthiness") with
    | .exn m => .exn m
    | .ok trust =>
      let inconsistencies := coerce_to_list (pyGet fields "inconsistencies" (.jarr []))
      let res :=
        match pyGet fields "connections" (.jarr []) with
        | .jarr conns => process_suspect_connections clues conns
        | _ => .ok []
      match res with
      | .exn m => .exn m
      | .ok connections =>
        let sq := coerce_to_list (pyGet fields "suggestedQuestions" (.jarr []))
        let sq :=
          if sq.isEmpty then
            [.jstr "What were you doing?", .jstr "Did you see anything unusual?"]
          else sq
        .ok ⟨suspect_id, trust, inconsistencies, connections, sq⟩
  | _ => .exn "AttributeError: get"

/-! ## Solution grading (`src/lib/case_solver.py`) -/

/-- Source `create_fallback_narrative` (lines 201-213): two fixed bilingual
templates selected by correctness. -/
def create_fallback_narrative (is_correct : Bool) (language : String) : String :=
  if language == "th" then
    if is_correct then
      "การวิเคราะห์ของคุณถูกต้อง! คุณได้ระบุผู้กระทำผิดและมีเหตุผลที่ดี คุณแก้คดีสำเร็จแล้ว!"
    else
      "การวิเคราะห์ของคุณมีจุดที่น่าสนใจ แต่ผู้ต้องสงสัยที่คุณเลือกไม่ใช่ผู้กระทำผิดจริง ลองตรวจสอบหลักฐานอีกครั้ง"
  else
    if is_correct then
      "Your analysis is correct! You identified the true culprit and provided good reasoning. You successfully solved this case!"
    else
      "Your analysis has interesting points, but the suspect you chose is not the actual culprit. Try reviewing the evidence again and reconsider the other suspects."

/-- Source `format_case_solution` (lines 159-179): the narrative is read through
the alias chain `narrative`/`explanation`/`description` and replaced by the
fallback template when falsy; `solved` is the locally computed
`is_correct`, never a payload value.  A non-dict payload raises at
`data.get` (caught by `analyze_solution`). -/
def format_case_solution (data : JValue) (culprit_id : String) (evidence_ids : List String)
    (reasoning : String) (is_correct : Bool) (language : String) : PyRes CaseSolution :=
  match data with
  | .jobj fields =>
    let narrative :=
      pyGet fields "narrative" (pyGet fields "explanation" (pyGet fields "description" (.jstr "")))
    let narrative :=
      if pyTruthy narrative then narrative
      else .jstr (create_fallback_narrative is_correct language)
    .ok ⟨is_correct, culprit_id, reasoning, evidence_ids, narrative⟩
  | _ => .exn "AttributeError: get"

/-- Source `create_fallback_solution` (lines 182-198). -/
def create_fallback_solution (culprit_id : String) (evidence_ids : List String)
    (reasoning : String) (is_correct : Bool) (language : String) : CaseSolution :=
  ⟨is_correct, culprit_id, reasoning, evidence_ids,
   .jstr (create_fallback_narrative is_correct language)⟩

/-- Source `analyze_solution` (lines 23-140), with the completion call abstracted
to its outcome.  The accused lookup and the guilty lookup happen before the
`try` block, so their `ValueError`s propagate; everything raised inside the
`try` (gateway failure, or `format_case_solution` raising) is caught and
produces the fallback solution.  `case_data` and `clues` only feed the
prompt and are not modelled. -/
def analyze_solution (suspects : List Suspect) (accused_suspect_id : String)
    (evidence_ids : List String) (reasoning : String) (language : String)
    (gateway : Except String String) : PyRes CaseSolution :=
  match suspects.find? (fun s => s.id == accused_suspect_id) with
  | none => .exn "ValueError: Accused suspect not found"
  | some accused =>
    match suspects.find? (fun s => s.isGuilty) with
    | none => .exn "ValueError: No guilty suspect found"
    | some guilty =>
      let is_correct := accused.id == guilty.id
      match gateway with
      | .error _ =>
        .ok (create_fallback_solution accused_suspect_id evidence_ids reasoning is_correct language)
      | .ok response =>
        match format_case_solution (solver_parse_json_response response) accused_suspect_id
            evidence_ids reasoning is_correct language with
        | .ok sol => .ok sol
        | .exn _ =>
          .ok (create_fallback_solution accused_suspect_id evidence_ids reasoning is_correct
                language)

/-- Source of the `solve-case` endpoint: (`src/api/python/solve-case.py`, `do_POST`):
HTTP 200 with the solution on success, HTTP 500 with `{"error": str(e)}`
when `analyze_solution` raises. -/
def solve_case_response (suspects : List Suspect) (accused_suspect_id : String)
    (evidence_ids : List String) (reasoning : String) (language : String)
    (gateway : Except String String) : Nat × Option String :=
  match analyze_solution suspects accused_suspect_id evidence_ids reasoning language gateway with
  | .ok _ => (200, none)
  | .exn m => (500, some m)

/-! ## Case-generation formatting (`src/lib/case_generator.py`) -/

/-- A suspect as built by `format_generated_case`: the payload-derived
fields hold whatever raw value the mapping supplied. -/
structure GenSuspect where
  id : String
  caseId : String
  name : JValue
  description : JValue
  background : JValue
  motive : JValue
  alibi : JValue
  isGuilty : JValue
  interviewed : Bool

structure GenClue where
  id : String
  caseId : String
  title : JValue
  description : JValue
  location : JValue
  type : JValue
  discovered : Bool
  examined : Bool
  relevance : JValue

structure GenCase where
  id : String
  title : JValue
  description : JValue
  summary : JValue
  difficulty : JValue
  solved : Bool
  location : JValue
  dateTime : JValue
  imageUrl : String
  isLLMGenerated : Bool

structure GeneratedCase where
  case : GenCase
  clues : List GenClue
  suspects : List GenSuspect
  solution : JValue

/-- Case construction (lines 177-191): `data.get('case',
data.get('case_details', {}))`, then per-field alias chains falling back to
top-level keys.  A non-dict `case`/`case_details` value raises at
`case_data.get`. -/
def build_gen_case (fields : List (String × JValue)) (id : String) : PyRes GenCase :=
  match pyGet fields "case" (pyGet fields "case_details" (.jobj [])) with
  | .jobj cf =>
    .ok ⟨id,
         pyGet cf "title" (pyGet fields "title" (.jstr "Untitled Case")),
         pyGet cf "description" (pyGet fields "description" (.jstr "")),
         pyGet cf "summary" (pyGet fields "summary" (.jstr "")),
         pyGet cf "difficulty" (pyGet fields "difficulty" (.jstr "medium")),
         false,
         pyGet cf "location" (pyGet fields "location" (.jstr "")),
         pyGet cf "dateTime" (pyGet fields "dateTime" (.jstr "")),
         "/case-file.png",
         true⟩
  | _ => .exn "AttributeError: get"

/-- Iterating a Python value with `for`: a list yields its elements; an
empty string or dict yields nothing; a non-empty string or dict yields
characters/keys, on which the loop body's `.get` raises `AttributeError`;
anything else raises `TypeError` at the loop head. -/
def iter_elems : JValue → PyRes (List JValue)
  | .jarr xs => .ok xs
  | .jstr s => if s.isEmpty then .ok [] else .exn "AttributeError: get"
  | .jobj fs => if fs.isEmpty then .ok [] else .exn "AttributeError: get"
  | _ => .exn "TypeError: not iterable"

/-- The clue loop (lines 194-208); `uuids` supplies the `uuid.uuid4()`
results, one per constructed clue starting at index `start`. -/
def build_gen_clues (caseId : String) (uuids : Nat → String) (start : Nat) :
    List JValue → PyRes (List GenClue)
  | [] => .ok []
  | d :: rest =>
    match d with
    | .jobj cf =>
      (build_gen_clues caseId uuids (start + 1) rest).map
        (fun tl =>
          ⟨uuids start, caseId,
           pyGet cf "title" (pyGet cf "item" (.jstr "Untitled Clue")),
           pyGet cf "description" (.jstr ""),
           pyGet cf "location" (pyGet cf "position_found" (.jstr "")),
           pyGet cf "type" (.jstr "physical"),
           false, false,
           pyGet cf "relevance" (pyGet cf "significance" (.jstr "important"))⟩ :: tl)
    | _ => .exn "AttributeError: get"

/-- The suspect loop (lines 211-225). -/
def build_gen_suspects (caseId : String) (uuids : Nat → String) (start : Nat) :
    List JValue → PyRes (List GenSuspect)
  | [] => .ok []
  | d :: rest =>
    match d with
    | .jobj sf =>
      (build_gen_suspects caseId uuids (start + 1) rest).map
        (fun tl =>
          ⟨uuids start, caseId,
           pyGet sf "name" (.jstr "Unknown Suspect"),
           pyGet sf "description" (.jstr ""),
           pyGet sf "background" (.jstr ""),
           pyGet sf "motive" (.jstr ""),
           pyGet sf "alibi" (.jstr ""),
           pyGet sf "isGuilty" (.jbool false),
           false⟩ :: tl)
    | _ => .exn "AttributeError: get"

/-- Solution extraction (lines 228-229): a string is kept verbatim, a dict
is read at `reasoning`, anything else raises at `.get`. -/
def build_gen_solution (fields : List (String × JValue)) : PyRes JValue :=
  match pyGet fields "solution" (.jstr "") with
  | .jstr s => .ok (.jstr s)
  | .jobj sf => .ok (pyGet sf "reasoning" (.jstr ""))
  | _ => .exn "AttributeError: get"

/-- The guilt-repair rule (lines 232-233): when the list is non-empty and
no suspect's guilt value is truthy, force `True` onto the first suspect. -/
def repair_guilt (suspects : List GenSuspect) : List GenSuspect :=
  if !suspects.isEmpty && !(suspects.any (fun s => pyTruthy s.isGuilty)) then
    match suspects with
    | s :: rest => { s with isGuilty := .jbool true } :: rest
    | [] => []
  else suspects

/-- Source `format_generated_case` (lines 167-240).  A non-dict payload raises at
`data.get` (caught by `generate_case`, which then formats the hardcoded
fallback case). -/
def format_generated_case (data : JValue) (language : String) (uuids : Nat → String) :
    PyRes GeneratedCase :=
  match data with
  | .jobj fields =>
    match build_gen_case fields (uuids 0) with
    | .exn m => .exn m
    | .ok c =>
      match iter_elems (pyGet fields "clues" (pyGet fields "evidence" (.jarr []))) with
      | .exn m => .exn m
      | .ok clue_dicts =>
        match build_gen_clues c.id uuids 1 clue_dicts with
        | .exn m => .exn m
        | .ok clues =>
          match iter_elems (pyGet fields "suspects" (.jarr [])) with
          | .exn m => .exn m
          | .ok suspect_dicts =>
            match build_gen_suspects c.id uuids (1 + clues.length) suspect_dicts with
            | .exn m => .exn m
            | .ok suspects =>
              match build_gen_solution fields with
              | .exn m => .exn m
              | .ok sol => .ok ⟨c, clues, repair_guilt suspects, sol⟩
  | _ => .exn "AttributeError: get"

/-- The hardcoded `FALLBACK_CASE` mapping (lines 57-85). -/
def fallback_case_json : JValue :=
  .jobj [
    ("case", .jobj [
      ("title", .jstr "The Missing Backpack"),
      ("description", .jstr "Alex's backpack is missing from the classroom! It has a special dinosaur patch on it."),
      ("summary", .jstr "Help find Alex's backpack with the dinosaur patch."),
      ("difficulty", .jstr "easy"),
      ("location", .jstr "Elementary School Classroom")]),
    ("clues", .jarr [
      .jobj [
        ("title", .jstr "Empty Hook"),
        ("description", .jstr "Alex's hook is empty. The hook next to it has two backpacks on it."),
        ("location", .jstr "Coat Room"),
        ("type", .jstr "physical"),
        ("relevance", .jstr "critical")]]),
    ("suspects", .jarr [
      .jobj [
        ("name", .jstr "Jamie"),
        ("description", .jstr "A student who also has a blue backpack"),
        ("background", .jstr "Jamie's backpack looks just like Alex's."),
        ("motive", .jstr "Jamie took the wrong backpack by mistake."),
        ("alibi", .jstr "Jamie says they grabbed their own backpack."),
        ("isGuilty", .jbool true)]]),
    ("solution", .jstr "Jamie took the wrong backpack by mistake!")]

/-! ## Persistence layer (`src/lib/database.py`)

The store is SQLite.  `get_db` (lines 20-32) opens each connection with
`sqlite3.connect(DB_PATH)` and never executes `PRAGMA foreign_keys = ON`;
SQLite ships with foreign-key enforcement disabled by default, so the
`ON DELETE CASCADE` clauses declared in `init_database` are **not**
enforced on these connections.  The model therefore treats the tables as
plain row lists and `delete_case` as touching only the `cases` table,
which is what the engine does under the default pragma.

Boolean flags are stored as the integers the write path produces
(`1 if … else 0`) and read back through `bool(...)`, i.e. `≠ 0`.
`INSERT OR REPLACE` removes any row with the same primary key and appends
the new row (the replacement gets a fresh rowid, so unordered `SELECT *`
scans, which return rows in rowid order, see it last).

The `clue_analyses` columns `connections`/`nextSteps` are stored through
`json.dumps` and read back through `json.loads`; that serialization is
lossless for the stored values and no claim depends on it, so the model
keeps the structured values in the row. -/

structure CaseRow where
  id : String
  title : String
  description : String
  summary : String
  difficulty : String
  solved : Int
  archived : Int
  location : String
  dateTime : String
  imageUrl : String
  isLLMGenerated : Int
  solution : String

structure ClueRow where
  id : String
  caseId : String
  title : String
  description : String
  location : String
  type : String
  discovered : Int
  examined : Int
  relevance : String
  emoji : String

structure SuspectRow where
  id : String
  caseId : String
  name : String
  description : String
  background : String
  motive : String
  alibi : String
  isGuilty : Int
  interviewed : Int
  emoji : String

structure AnalysisRow where
  clue_id : String
  case_id : String
  summary : JValue
  connections : JValue
  nextSteps : JValue

structure InterviewRow where
  suspect_id : String
  case_id : String
  question : String
  answer : String

structure DB where
  cases : List CaseRow
  clues : List ClueRow
  suspects : List SuspectRow
  clue_analyses : List AnalysisRow
  suspect_interviews : List InterviewRow

def emptyDB : DB := ⟨[], [], [], [], []⟩

def boolToInt (b : Bool) : Int := if b then 1 else 0

/-- Model of `bool(x)` applied to a stored integer flag. -/
def intToBool (n : Int) : Bool := n != 0

def upsertCaseRow (rows : List CaseRow) (r : CaseRow) : List CaseRow :=
  rows.filter (fun x => x.id != r.id) ++ [r]

def upsertClueRow (rows : List ClueRow) (r : ClueRow) : List ClueRow :=
  rows.filter (fun x => x.id != r.id) ++ [r]

def upsertSuspectRow (rows : List SuspectRow) (r : SuspectRow) : List SuspectRow :=
  rows.filter (fun x => x.id != r.id) ++ [r]

def caseToRow (c : Case) (solution : String) : CaseRow :=
  ⟨c.id, c.title, c.description, c.summary, c.difficulty,
   boolToInt c.solved, boolToInt c.archived,
   c.location, c.dateTime, c.imageUrl, boolToInt c.isLLMGenerated, solution⟩

/-- Clue insert (lines 177-195): the stored `caseId` is the case's own id,
not the clue's field. -/
def clueToRow (caseId : String) (c : Clue) : ClueRow :=
  ⟨c.id, caseId, c.title, c.description, c.location, c.type,
   boolToInt c.discovered, boolToInt c.examined, c.relevance, c.emoji⟩

def suspectToRow (caseId : String) (s : Suspect) : SuspectRow :=
  ⟨s.id, caseId, s.name, s.description, s.background, s.motive, s.alibi,
   boolToInt s.isGuilty, boolToInt s.interviewed, s.emoji⟩

/-- Source `save_case` (lines 144-218): upsert the case row and every clue and
suspect row, all inside one `get_db` context (a single transaction). -/
def save_case (case : Case) (clues : List Clue) (suspects : List Suspect)
    (solution : String) (db : DB) : DB :=
  { db with
    cases := upsertCaseRow db.cases (caseToRow case solution),
    clues := clues.foldl (fun rows c => upsertClueRow rows (clueToRow case.id c)) db.clues,
    suspects :=
      suspects.foldl (fun rows s => upsertSuspectRow rows (suspectToRow case.id s)) db.suspects }

/-- The dict a clue row reads back to (`get_case_clues`, lines 269-282):
`discovered`/`examined` converted through `bool(...)`. -/
structure ClueOut where
  id : String
  caseId : String
  title : String
  description : String
  location : String
  type : String
  discovered : Bool
  examined : Bool
  relevance : String
  emoji : String

structure SuspectOut where
  id : String
  caseId : String
  name : String
  description : String
  background : String
  motive : String
  alibi : String
  isGuilty : Bool
  interviewed : Bool
  emoji : String

structure CaseOut where
  id : String
  title : String
  description : String
  summary : String
  difficulty : String
  solved : Bool
  archived : Bool
  location : String
  dateTime : String
  imageUrl : String
  isLLMGenerated : Bool
  solution : String
  clues : List ClueOut
  suspects : List SuspectOut

def clueRowOut (r : ClueRow) : ClueOut :=
  ⟨r.id, r.caseId, r.title, r.description, r.location, r.type,
   intToBool r.discovered, intToBool r.examined, r.relevance, r.emoji⟩

def suspectRowOut (r : SuspectRow) : SuspectOut :=
  ⟨r.id, r.caseId, r.name, r.description, r.background, r.motive, r.alibi,
   intToBool r.isGuilty, intToBool r.interviewed, r.emoji⟩

/-- Source `get_case_clues` (lines 269-282): `SELECT * FROM clues WHERE caseId = ?`
with the boolean columns converted back. -/
def get_case_clues (case_id : String) (db : DB) : List ClueOut :=
  (db.clues.filter (fun r => r.caseId == case_id)).map clueRowOut

/-- Source `get_case_suspects` (lines 285-298). -/
def get_case_suspects (case_id : String) (db : DB) : List SuspectOut :=
  (db.suspects.filter (fun r => r.caseId == case_id)).map suspectRowOut

/-- Source `get_case_by_id` (lines 247-266): `None` when no case row matches,
otherwise the row with boolean flags restored and clues/suspects joined. -/
def get_case_by_id (case_id : String) (db : DB) : Option CaseOut :=
  match db.cases.find? (fun r => r.id == case_id) with
  | none => none
  | some r =>
    some ⟨r.id, r.title, r.description, r.summary, r.difficulty,
          intToBool r.solved, intToBool r.archived,
          r.location, r.dateTime, r.imageUrl, intToBool r.isLLMGenerated, r.solution,
          get_case_clues case_id db, get_case_suspects case_id db⟩

/-- Source `delete_case` (lines 313-318): a single `DELETE FROM cases WHERE id = ?`.
The source comments that "Foreign key constraints will cascade the
deletion", but with the connection's default `foreign_keys = OFF` pragma
the engine performs no cascade, so only the `cases` table changes. -/
def delete_case (case_id : String) (db : DB) : DB :=
  { db with cases := db.cases.filter (fun r => r.id != case_id) }

/-- Source `save_clue_analysis` (lines 338-352): `INSERT OR REPLACE` keyed by
`clue_id`. -/
def save_clue_analysis (clue_id : String) (case_id : String)
    (summary connections nextSteps : JValue) (db : DB) : DB :=
  { db with
    clue_analyses :=
      db.clue_analyses.filter (fun r => r.clue_id != clue_id) ++
        [⟨clue_id, case_id, summary, connections, nextSteps⟩] }

/-- Source `get_clue_analysis` (lines 355-369). -/
def get_clue_analysis (clue_id : String) (db : DB) : Option AnalysisRow :=
  db.clue_analyses.find? (fun r => r.clue_id == clue_id)

/-- Source `save_interview` (lines 389-396): plain append. -/
def save_interview (suspect_id : String) (case_id : String) (question answer : String)
    (db : DB) : DB :=
  { db with suspect_interviews := db.suspect_interviews ++ [⟨suspect_id, case_id, question, answer⟩] }

/-- Source `get_suspect_interviews` (lines 399-413). -/
def get_suspect_interviews (suspect_id : String) (db : DB) : List InterviewRow :=
  db.suspect_interviews.filter (fun r => r.suspect_id == suspect_id)

/-! ## Shared sample data and helper lemmas -/

def sampleCase : Case :=
  ⟨"case-1", "The Missing Backpack", "desc", "sum", "easy", true, false, "loc", "dt",
   "/case-file.png", true⟩

def sampleClue : Clue :=
  ⟨"clue-1", "case-1", "Empty Hook", "desc", "Coat Room", "physical", true, false, "critical", "🔍"⟩

def sampleSuspect : Suspect :=
  ⟨"sus-1", "case-1", "Jamie Chen", "desc", "bg", "motive", "alibi", true, false, "👤"⟩

theorem leadsWith_self (l : List Char) : leadsWith l l = true := by
  induction l with
  | nil => rfl
  | cons c t ih => simp [leadsWith, ih]

theorem hasSub_self (l : List Char) : hasSub l l = true := by
  cases l with
  | nil => rfl
  | cons c t => simp [hasSub, leadsWith_self]

theorem strIn_self (s : String) : strIn s s = true := hasSub_self s.toList

theorem hasSub_nil_left (hay : List Char) : hasSub [] hay = true := by
  cases hay with
  | nil => rfl
  | cons c t => simp [hasSub, leadsWith]

theorem strIn_empty_left (s : String) : strIn "" s = true := hasSub_nil_left s.toList

theorem pyLower_empty : pyLower "" = "" := rfl

theorem intToBool_boolToInt (b : Bool) : intToBool (boolToInt b) = b := by
  cases b <;> rfl

/-! ## C3 — cascade on delete -/

/-- Claim C3 (code bug): the spec and the source's own comment say that
`delete_case` cascades referentially to clue, suspect, analysis and
interview rows, but `get_db` never enables `PRAGMA foreign_keys`, so
SQLite's default leaves the declared `ON DELETE CASCADE` clauses
unenforced.  Concretely: after saving case `case-1` with one clue, one
suspect, one cached analysis and one interview row and then deleting the
case, `get_case_by_id` does return not-found, but every child row is still
queryable. -/
theorem delete_case_leaves_child_rows :
    get_case_by_id "case-1"
        (delete_case "case-1"
          (save_interview "sus-1" "case-1" "q" "a"
            (save_clue_analysis "clue-1" "case-1" (.jstr "sum") (.jarr []) (.jarr [])
              (save_case sampleCase [sampleClue] [sampleSuspect] "sol" emptyDB)))) = none ∧
    (get_case_clues "case-1"
        (delete_case "case-1"
          (save_interview "sus-1" "case-1" "q" "a"
            (save_clue_analysis "clue-1" "case-1" (.jstr "sum") (.jarr []) (.jarr [])
              (save_case sampleCase [sampleClue] [sampleSuspect] "sol" emptyDB))))).length = 1 ∧
    (get_case_suspects "case-1"
        (delete_case "case-1"
          (save_interview "sus-1" "case-1" "q" "a"
            (save_clue_analysis "clue-1" "case-1" (.jstr "sum") (.jarr []) (.jarr [])
              (save_case sampleCase [sampleClue] [sampleSuspect] "sol" emptyDB))))).length = 1 ∧
    (get_clue_analysis "clue-1"
        (delete_case "case-1"
          (save_interview "sus-1" "case-1" "q" "a"
            (save_clue_analysis "clue-1" "case-1" (.jstr "sum") (.jarr []) (.jarr [])
              (save_case sampleCase [sampleClue] [sampleSuspect] "sol" emptyDB))))).isSome = true ∧
    (get_suspect_interviews "sus-1"
        (delete_case "case-1"
          (save_interview "sus-1" "case-1" "q" "a"
            (save_clue_analysis "clue-1" "case-1" (.jstr "sum") (.jarr []) (.jarr [])
              (save_case sampleCase [sampleClue] [sampleSuspect] "sol" emptyDB))))).length = 1 :=
  ⟨rfl, rfl, rfl, rfl, rfl⟩

/-! ## C1 — response normalization never raises -/

/-- Counterexample to claim C1 as stated: the case-generation path's
`parse_json_response` does raise (`ValueError`) on malformed input instead
of returning a degraded default. -/
theorem casegen_parse_raises_on_malformed :
    casegen_parse_json_response "not json" =
      .exn "ValueError: Failed to parse the generated case data" := rfl

/-- Claim C1 (amended): for every raw response text, the parse steps of
clue analysis, suspect analysis and solution grading never raise — each
returns either the parsed value or its task-specific degraded default
mapping — while the case-generation `parse_json_response` returns the
parsed value on success and raises `ValueError` on unparseable text (its
caller `generate_case` catches that and formats the hardcoded fallback
case instead). -/
theorem parse_json_response_degrades (response : String) :
    (∀ v, jsonLoads (extractJson response) = some v →
        clue_parse_json_response response = v ∧
        suspect_parse_json_response response = v ∧
        solver_parse_json_response response = v ∧
        casegen_parse_json_response response = .ok v) ∧
    (jsonLoads (extractJson response) = none →
        clue_parse_json_response response =
          .jobj [("summary", .jstr response), ("connections", .jarr []),
                 ("nextSteps", .jarr [])] ∧
        suspect_parse_json_response response =
          .jobj [("trustworthiness", .jint 50), ("inconsistencies", .jarr []),
                 ("connections", .jarr []), ("suggestedQuestions", .jarr [])] ∧
        solver_parse_json_response response = .jobj [("narrative", .jstr response)] ∧
        casegen_parse_json_response response =
          .exn "ValueError: Failed to parse the generated case data") := by
  constructor
  · intro v h
    refine ⟨?_, ?_, ?_, ?_⟩ <;>
      simp [clue_parse_json_response, suspect_parse_json_response,
        solver_parse_json_response, casegen_parse_json_response, h]
  · intro h
    refine ⟨?_, ?_, ?_, ?_⟩ <;>
      simp [clue_parse_json_response, suspect_parse_json_response,
        solver_parse_json_response, casegen_parse_json_response, h]

/-- Witness for C1's amended theorem at the concrete malformed input
`"not json"`. -/
theorem parse_json_response_degrades_witness :
    clue_parse_json_response "not json" =
      .jobj [("summary", .jstr "not json"), ("connections", .jarr []),
             ("nextSteps", .jarr [])] :=
  (((parse_json_response_degrades "not json").2 (by rfl))).1

/-! ## C8 — unparseable clue analysis degrades without information loss -/

/-- Claim C8: when the gateway text is not parseable JSON after the
extraction attempts, `analyze_clue` returns an analysis with an empty
connections list, a non-empty next-steps list containing the placeholder,
and a summary that carries the raw response text verbatim. -/
theorem analyze_clue_unparseable_degrades (response : String) (suspects : List Suspect)
    (h : jsonLoads (extractJson response) = none) :
    (analyze_clue (.ok response) suspects).connections = [] ∧
    (analyze_clue (.ok response) suspects).nextSteps = [.jstr "Continue investigating"] ∧
    (analyze_clue (.ok response) suspects).nextSteps ≠ [] ∧
    ∃ s, (analyze_clue (.ok response) suspects).summary = .jstr s ∧ strIn response s = true := by
  have hform : analyze_clue (.ok response) suspects =
      ⟨.jstr response, [], [.jstr "Continue investigating"]⟩ := by
    simp [analyze_clue, clue_parse_json_response, h, format_clue_analysis, pyGet, objFind,
      process_clue_connections, coerce_to_list]
  refine ⟨?_, ?_, ?_, response, ?_, strIn_self response⟩ <;> simp [hform]

/-- Witness for C8 at the concrete unparseable response `"hello"`. -/
theorem analyze_clue_unparseable_degrades_witness :
    (analyze_clue (.ok "hello") []).connections = [] ∧
    (analyze_clue (.ok "hello") []).nextSteps = [.jstr "Continue investigating"] :=
  ⟨(analyze_clue_unparseable_degrades "hello" [] (by rfl)).1,
   (analyze_clue_unparseable_degrades "hello" [] (by rfl)).2.1⟩

/-! ## C10 — a connection with no name keys resolves to the first entity -/

/-- Claim C10: a connection entry carrying neither `suspect` nor
`suspectName` gets candidate name `""`; since the empty string is a
substring of every name, the fuzzy match succeeds on the first suspect in
list order, so the connection is kept and attributed to that suspect
rather than dropped.  The same holds for clue-name resolution in
suspect-analysis formatting (default trustworthiness 50 and placeholder
questions fill the remaining fields there). -/
theorem nameless_connection_resolves_to_first
    (suspects : List Suspect) (s0 : Suspect) (srest : List Suspect)
    (clues : List Clue) (c0 : Clue) (crest : List Clue) (sid : String)
    (hs : suspects = s0 :: srest) (hc : clues = c0 :: crest) :
    format_clue_analysis (.jobj [("connections", .jarr [.jobj []])]) suspects =
      .ok ⟨.jstr "No analysis available", [⟨s0.id, .jstr "related", .jstr ""⟩],
           [.jstr "Continue investigating"]⟩ ∧
    format_suspect_analysis (.jobj [("connections", .jarr [.jobj []])]) clues sid =
      .ok ⟨sid, .jint 50, [], [⟨c0.id, .jstr "related", .jstr ""⟩],
           [.jstr "What were you doing?", .jstr "Did you see anything unusual?"]⟩ := by
  subst hs hc
  constructor
  · simp [format_clue_analysis, pyGet, objFind, process_clue_connections,
      format_clue_connection, find_matching_suspect, List.find?, suspect_name_match,
      pyLower_empty, strIn_empty_left, coerce_to_list, PyRes.map]
  · simp [format_suspect_analysis, pyGet, objFind, normalize_trustworthiness,
      process_suspect_connections, format_suspect_connection, find_matching_clue,
      List.find?, clue_title_match, pyLower_empty, strIn_empty_left, coerce_to_list,
      PyRes.map]

/-- Witness for C10 at concrete singleton suspect and clue lists. -/
theorem nameless_connection_resolves_to_first_witness :
    format_clue_analysis (.jobj [("connections", .jarr [.jobj []])]) [sampleSuspect] =
      .ok ⟨.jstr "No analysis available", [⟨"sus-1", .jstr "related", .jstr ""⟩],
           [.jstr "Continue investigating"]⟩ ∧
    format_suspect_analysis (.jobj [("connections", .jarr [.jobj []])]) [sampleClue] "sus-1" =
      .ok ⟨"sus-1", .jint 50, [], [⟨"clue-1", .jstr "related", .jstr ""⟩],
           [.jstr "What were you doing?", .jstr "Did you see anything unusual?"]⟩ :=
  nameless_connection_resolves_to_first [sampleSuspect] sampleSuspect []
    [sampleClue] sampleClue [] "sus-1" rfl rfl

/-! ## C6 — trustworthiness normalization -/

/-- Counterexample to claim C6 as stated: it quantifies over *every* input
mapping, but a mapping whose `trustworthiness` is JSON `null` makes
`format_suspect_analysis` raise a `TypeError` inside
`max(0, min(100, None))`, so no trustworthiness results at all. -/
theorem trustworthiness_null_raises :
    format_suspect_analysis (.jobj [("trustworthiness", .jnull)]) [] "s1" =
      .exn "TypeError: comparison between the value and int not supported" := rfl

/-- Claim C6 (amended): restricted to mappings whose `trustworthiness`
value is missing, an integer, or a string, the resulting trustworthiness
is an integer in `[0, 100]`: an integer is clamped; a digit string is
parsed by `int()` and then clamped; a non-numeric string falls back to 50;
a missing value defaults to 50; in particular `"150"` normalizes to `100`
and `"abc"` to `50`.  (A value of any other type, e.g. `null` or a list,
instead raises `TypeError` from the `max`/`min` comparison.)  The first
conjunct ties the normalization to `format_suspect_analysis`: whenever the
formatter returns, its trustworthiness field is exactly the normalizer's
output on the mapping's `trustworthiness` entry. -/
theorem trustworthiness_normalized (fields : List (String × JValue)) (clues : List Clue)
    (sid : String) (a : SuspectAnalysis) (n : Int) (s : String) :
    (format_suspect_analysis (.jobj fields) clues sid = .ok a →
        normalize_trustworthiness (objFind fields "trustworthiness") = .ok a.trustworthiness) ∧
    normalize_trustworthiness none = .ok (.jint 50) ∧
    (normalize_trustworthiness (some (.jint n)) = .ok (.jint (max 0 (min 100 n))) ∧
      0 ≤ max 0 (min 100 n) ∧ max 0 (min 100 n) ≤ 100) ∧
    normalize_trustworthiness (some (.jstr s)) =
      .ok (.jint (match pyInt s with
        | some k => max 0 (min 100 k)
        | none => 50)) ∧
    normalize_trustworthiness (some (.jstr "150")) = .ok (.jint 100) ∧
    normalize_trustworthiness (some (.jstr "abc")) = .ok (.jint 50) := by
  refine ⟨?_, rfl, ⟨rfl, ?_, ?_⟩, ?_, rfl, rfl⟩
  · intro h
    simp only [format_suspect_analysis] at h
    split at h
    · exact nomatch h
    · split at h
      · exact nomatch h
      · cases h
        assumption
  · exact le_max_left 0 _
  · exact max_le (by norm_num) (min_le_left 100 n)
  · unfold normalize_trustworthiness
    cases hp : pyInt s <;> simp [hp]

/-- Witness for C6's amended theorem: the `"150"` mapping formats
successfully, and the theorem then pins its trustworthiness to the
normalizer's output, `100`. -/
theorem trustworthiness_normalized_witness :
    normalize_trustworthiness (objFind [("trustworthiness", .jstr "150")] "trustworthiness") =
      .ok (.jint 100) := by
  have h := (trustworthiness_normalized [("trustworthiness", .jstr "150")] [] "s1"
    ⟨"s1", .jint 100, [], [],
     [.jstr "What were you doing?", .jstr "Did you see anything unusual?"]⟩ 0 "").1 (by rfl)
  exact h

/-! ## C9 — solution-grading validation errors -/

theorem format_case_solution_solved (data : JValue) (cid : String) (ev : List String)
    (r : String) (b : Bool) (l : String) (sol : CaseSolution)
    (h : format_case_solution data cid ev r b l = .ok sol) : sol.solved = b := by
  cases data with
  | jobj fields =>
    simp only [format_case_solution] at h
    injection h with h2
    rw [← h2]
  | jnull => exact nomatch h
  | jbool b' => exact nomatch h
  | jint n => exact nomatch h
  | jstr s => exact nomatch h
  | jarr xs => exact nomatch h

/-- Claim C9: `analyze_solution` raises a validation error exactly when
the accused suspect ID matches no suspect, or (accused found) when no
suspect has the guilt flag set; each error carries its message, no
solution is returned in those situations, any other situation returns a
solution, and the HTTP handler surfaces a raised error as a 500 response
carrying the message. -/
theorem solution_validation_errors (suspects : List Suspect) (aid : String)
    (ev : List String) (reasoning lang : String) (gw : Except String String) :
    (analyze_solution suspects aid ev reasoning lang gw =
        .exn "ValueError: Accused suspect not found" ↔
      suspects.find? (fun s => s.id == aid) = none) ∧
    (analyze_solution suspects aid ev reasoning lang gw =
        .exn "ValueError: No guilty suspect found" ↔
      (suspects.find? (fun s => s.id == aid)).isSome ∧
        suspects.find? (fun s => s.isGuilty) = none) ∧
    (∀ m, analyze_solution suspects aid ev reasoning lang gw = .exn m →
        solve_case_response suspects aid ev reasoning lang gw = (500, some m)) ∧
    ((∃ sol, analyze_solution suspects aid ev reasoning lang gw = .ok sol) ↔
      (suspects.find? (fun s => s.id == aid)).isSome ∧
        (suspects.find? (fun s => s.isGuilty)).isSome) := by
  have hne : ¬(("ValueError: Accused suspect not found" : String) =
      "ValueError: No guilty suspect found") := by decide
  have hne' : ¬(("ValueError: No guilty suspect found" : String) =
      "ValueError: Accused suspect not found") := by decide
  cases ha : suspects.find? (fun s => s.id == aid) with
  | none =>
    have hval : analyze_solution suspects aid ev reasoning lang gw =
        .exn "ValueError: Accused suspect not found" := by
      simp [analyze_solution, ha]
    refine ⟨?_, ?_, ?_, ?_⟩
    · simp [hval, ha]
    · simp [hval, ha, PyRes.exn.injEq, hne]
    · intro m hm
      rw [hval] at hm
      cases hm
      simp [solve_case_response, hval]
    · simp [hval, ha]
  | some accused =>
    cases hg : suspects.find? (fun s => s.isGuilty) with
    | none =>
      have hval : analyze_solution suspects aid ev reasoning lang gw =
          .exn "ValueError: No guilty suspect found" := by
        simp [analyze_solution, ha, hg]
      refine ⟨?_, ?_, ?_, ?_⟩
      · simp [hval, ha, PyRes.exn.injEq, hne']
      · simp [hval, ha, hg]
      · intro m hm
        rw [hval] at hm
        cases hm
        simp [solve_case_response, hval]
      · simp [hval, hg]
    | some guilty =>
      have hok : ∃ sol, analyze_solution suspects aid ev reasoning lang gw = .ok sol := by
        cases gw with
        | error e =>
          exact ⟨create_fallback_solution aid ev reasoning (accused.id == guilty.id) lang,
            by simp [analyze_solution, ha, hg]⟩
        | ok resp =>
          cases hf : format_case_solution (solver_parse_json_response resp) aid ev reasoning
              (accused.id == guilty.id) lang with
          | ok sol => exact ⟨sol, by simp [analyze_solution, ha, hg, hf]⟩
          | exn m =>
            exact ⟨create_fallback_solution aid ev reasoning (accused.id == guilty.id) lang,
              by simp [analyze_solution, ha, hg, hf]⟩
      obtain ⟨sol, hsol⟩ := hok
      refine ⟨?_, ?_, ?_, ?_⟩
      · simp [hsol, ha]
      · simp [hsol, hg]
      · intro m hm
        rw [hsol] at hm
        exact nomatch hm
      · simp [hsol, ha, hg]

/-- Witness for C9 at a concrete input with no matching accused suspect:
grading raises the validation error and the endpoint returns a 500
carrying its message. -/
theorem solution_validation_errors_witness :
    analyze_solution [] "nobody" [] "r" "en" (.error "down") =
      .exn "ValueError: Accused suspect not found" ∧
    solve_case_response [] "nobody" [] "r" "en" (.error "down") =
      (500, some "ValueError: Accused suspect not found") := by
  have h := solution_validation_errors [] "nobody" [] "r" "en" (.error "down")
  have h1 := h.1.mpr (by rfl)
  exact ⟨h1, h.2.2.1 _ h1⟩

/-! ## C5 — solved flag is locally computed ground truth -/

theorem create_fallback_narrative_ne_empty (b : Bool) (lang : String) :
    create_fallback_narrative b lang ≠ "" := by
  unfold create_fallback_narrative
  split <;> cases b <;> simp

/-- Claim C5: whenever `analyze_solution` returns a solution, its `solved`
flag is the locally computed ground truth — the accused suspect ID equals
the (first) guilty suspect's ID — for every gateway outcome, so it is
never taken from the model output; and when the gateway call fails
entirely, a correct accusation still yields `solved = true` together with
the non-empty fallback narrative template. -/
theorem solved_is_ground_truth (suspects : List Suspect) (aid : String) (ev : List String)
    (reasoning lang : String) (accused guilty : Suspect)
    (ha : suspects.find? (fun s => s.id == aid) = some accused)
    (hg : suspects.find? (fun s => s.isGuilty) = some guilty) :
    (∀ (gw : Except String String) (sol : CaseSolution),
        analyze_solution suspects aid ev reasoning lang gw = .ok sol →
        sol.solved = (aid == guilty.id)) ∧
    (∀ err : String, aid = guilty.id →
        ∃ sol, analyze_solution suspects aid ev reasoning lang (.error err) = .ok sol ∧
          sol.solved = true ∧
          sol.narrative = .jstr (create_fallback_narrative true lang) ∧
          create_fallback_narrative true lang ≠ "") := by
  have hacc : accused.id = aid := by
    have := List.find?_some ha
    exact eq_of_beq this
  constructor
  · intro gw sol h
    cases gw with
    | error e =>
      simp only [analyze_solution, ha, hg] at h
      cases h
      simp [create_fallback_solution, hacc]
    | ok resp =>
      simp only [analyze_solution, ha, hg] at h
      cases hf : format_case_solution (solver_parse_json_response resp) aid ev reasoning
          (accused.id == guilty.id) lang with
      | ok sol' =>
        rw [hf] at h
        cases h
        rw [format_case_solution_solved _ _ _ _ _ _ _ hf, hacc]
      | exn m =>
        rw [hf] at h
        cases h
        simp [create_fallback_solution, hacc]
  · intro err heq
    refine ⟨create_fallback_solution aid ev reasoning (accused.id == guilty.id) lang, ?_, ?_, ?_,
      create_fallback_narrative_ne_empty true lang⟩
    · simp [analyze_solution, ha, hg]
    · simp [create_fallback_solution, hacc, heq]
    · simp [create_fallback_solution, hacc, heq]

/-- Witness for C5: a one-suspect case, correct accusation, failed
gateway: the fallback still grades `solved = true` with the non-empty
template narrative. -/
theorem solved_is_ground_truth_witness :
    ∃ sol, analyze_solution [sampleSuspect] "sus-1" [] "because" "en" (.error "down") =
        .ok sol ∧
      sol.solved = true ∧
      sol.narrative = .jstr (create_fallback_narrative true "en") ∧
      create_fallback_narrative true "en" ≠ "" :=
  (solved_is_ground_truth [sampleSuspect] "sus-1" [] "because" "en" sampleSuspect sampleSuspect
    (by rfl) (by rfl)).2 "down" rfl

/-! ## C2 — guilt-flag invariant of generated case bundles -/

/-- Counterexample to claim C2 as stated: it requires at least one guilty
suspect "for every input mapping, including one whose suspects list is
empty", but formatting the empty mapping succeeds with an empty suspects
list, which therefore contains no guilty suspect (the repair rule is
guarded by `if suspects and …`). -/
theorem format_empty_mapping_no_suspects :
    (format_generated_case (.jobj []) "en" (fun n => "uuid-" ++ toString n)).map
      (fun g => g.suspects) = .ok [] := rfl

theorem repair_guilt_any (ss : List GenSuspect) (h : repair_guilt ss ≠ []) :
    (repair_guilt ss).any (fun s => pyTruthy s.isGuilty) = true := by
  by_cases hany : ss.any (fun s => pyTruthy s.isGuilty) = true
  · unfold repair_guilt
    rw [hany]
    simp [hany]
  · cases ss with
    | nil => simp [repair_guilt] at h
    | cons s rest =>
      unfold repair_guilt
      simp only [List.isEmpty_cons, Bool.not_false, Bool.true_and,
        Bool.not_eq_true] at *
      rw [hany]
      simp [pyTruthy]

/-- Claim C2 (amended): whenever `format_generated_case` succeeds and the
resulting suspects list is non-empty, at least one suspect carries a
truthy guilt flag; when none of the mapped suspects is truthy-guilty, the
repair rule forces `True` onto the first suspect in list order; and the
hardcoded fallback case formats to a bundle with a guilty suspect.  For an
input whose suspects list is empty the bundle simply has no suspects, so
the invariant is vacuous there rather than enforced. -/
theorem generated_case_guilt_invariant :
    (∀ (data : JValue) (lang : String) (uuids : Nat → String) (g : GeneratedCase),
        format_generated_case data lang uuids = .ok g →
        g.suspects ≠ [] → g.suspects.any (fun s => pyTruthy s.isGuilty) = true) ∧
    (∀ ss : List GenSuspect, ss ≠ [] →
        ss.all (fun s => !pyTruthy s.isGuilty) = true →
        ∃ s rest, repair_guilt ss = s :: rest ∧ s.isGuilty = .jbool true) ∧
    (format_generated_case fallback_case_json "en" (fun n => "uuid-" ++ toString n)).map
      (fun g => g.suspects.any (fun s => pyTruthy s.isGuilty)) = .ok true := by
  refine ⟨?_, ?_, rfl⟩
  · intro data lang uuids g h hne
    cases data with
    | jobj fields =>
      simp only [format_generated_case] at h
      split at h
      · exact nomatch h
      · split at h
        · exact nomatch h
        · split at h
          · exact nomatch h
          · split at h
            · exact nomatch h
            · split at h
              · exact nomatch h
              · split at h
                · exact nomatch h
                · cases h
                  exact repair_guilt_any _ hne
    | jnull => exact nomatch h
    | jbool b => exact nomatch h
    | jint n => exact nomatch h
    | jstr s => exact nomatch h
    | jarr xs => exact nomatch h
  · intro ss hne hall
    cases ss with
    | nil => exact absurd rfl hne
    | cons s rest =>
      have hany : (s :: rest).any (fun s => pyTruthy s.isGuilty) = false := by
        rw [← Bool.not_eq_true, List.any_eq_true]
        push_neg
        intro x hx
        have := List.all_eq_true.mp hall x hx
        simpa using this
      refine ⟨{ s with isGuilty := .jbool true }, rest, ?_, rfl⟩
      unfold repair_guilt
      simp [hany]

/-- Witness for C2's amended theorem: a singleton not-guilty suspect list
gets its first element forced guilty by the repair rule. -/
theorem generated_case_guilt_invariant_witness :
    ∃ s rest,
      repair_guilt [⟨"u1", "c1", .jstr "Jamie", .jstr "", .jstr "", .jstr "", .jstr "",
        .jbool false, false⟩] = s :: rest ∧ s.isGuilty = .jbool true :=
  generated_case_guilt_invariant.2.1
    [⟨"u1", "c1", .jstr "Jamie", .jstr "", .jstr "", .jstr "", .jstr "", .jbool false, false⟩]
    (by simp) (by rfl)


/-! ## C4 — save/get round trip -/

theorem foldl_upsert_clue_rows (caseId : String) (l : List Clue) (acc : List ClueRow)
    (hnd : (l.map Clue.id).Nodup) (hacc : ∀ r ∈ acc, r.id ∉ l.map Clue.id) :
    l.foldl (fun rows c => upsertClueRow rows (clueToRow caseId c)) acc =
      acc ++ l.map (clueToRow caseId) := by
  induction l generalizing acc with
  | nil => simp
  | cons c t ih =>
    simp only [List.foldl_cons, List.map_cons]
    have hfilter : upsertClueRow acc (clueToRow caseId c) = acc ++ [clueToRow caseId c] := by
      unfold upsertClueRow
      have heq : acc.filter (fun x => x.id != (clueToRow caseId c).id) = acc := by
        apply List.filter_eq_self.mpr
        intro r hr
        have hnotin := hacc r hr
        simp only [List.map_cons, List.mem_cons, not_or] at hnotin
        simp [clueToRow, bne_iff_ne, hnotin.1]
      rw [heq]
    rw [hfilter]
    rw [ih (acc ++ [clueToRow caseId c]) (by simpa using hnd.of_cons) ?_]
    · simp
    · intro r hr
      rcases List.mem_append.mp hr with hr | hr
      · have hnotin := hacc r hr
        simp only [List.map_cons, List.mem_cons, not_or] at hnotin
        exact hnotin.2
      · simp only [List.mem_singleton] at hr
        subst hr
        simp only [List.map_cons, List.nodup_cons] at hnd
        simpa [clueToRow] using hnd.1

theorem foldl_upsert_suspect_rows (caseId : String) (l : List Suspect) (acc : List SuspectRow)
    (hnd : (l.map Suspect.id).Nodup) (hacc : ∀ r ∈ acc, r.id ∉ l.map Suspect.id) :
    l.foldl (fun rows s => upsertSuspectRow rows (suspectToRow caseId s)) acc =
      acc ++ l.map (suspectToRow caseId) := by
  induction l generalizing acc with
  | nil => simp
  | cons c t ih =>
    simp only [List.foldl_cons, List.map_cons]
    have hfilter : upsertSuspectRow acc (suspectToRow caseId c) =
        acc ++ [suspectToRow caseId c] := by
      unfold upsertSuspectRow
      have heq : acc.filter (fun x => x.id != (suspectToRow caseId c).id) = acc := by
        apply List.filter_eq_self.mpr
        intro r hr
        have hnotin := hacc r hr
        simp only [List.map_cons, List.mem_cons, not_or] at hnotin
        simp [suspectToRow, bne_iff_ne, hnotin.1]
      rw [heq]
    rw [hfilter]
    rw [ih (acc ++ [suspectToRow caseId c]) (by simpa using hnd.of_cons) ?_]
    · simp
    · intro r hr
      rcases List.mem_append.mp hr with hr | hr
      · have hnotin := hacc r hr
        simp only [List.map_cons, List.mem_cons, not_or] at hnotin
        exact hnotin.2
      · simp only [List.mem_singleton] at hr
        subst hr
        simp only [List.map_cons, List.nodup_cons] at hnd
        simpa [suspectToRow] using hnd.1

/-- Claim C4: saving a case bundle with pairwise-distinct clue ids and
pairwise-distinct suspect ids into an empty store and reading it back
returns the case with exactly the saved clue-ID and suspect-ID lists (so
equal ID sets), and every boolean flag — `solved`, `archived`,
`isLLMGenerated`, `discovered`, `examined`, `isGuilty`, `interviewed` —
round-trips to the same boolean value: the read path converts each stored
0/1 integer back through `bool(...)`, never exposing the storage
encoding. -/
theorem save_get_round_trip (case : Case) (clues : List Clue) (suspects : List Suspect)
    (sol : String)
    (hc : (clues.map Clue.id).Nodup) (hs : (suspects.map Suspect.id).Nodup) :
    ∃ out, get_case_by_id case.id (save_case case clues suspects sol emptyDB) = some out ∧
      out.clues.map (fun c => c.id) = clues.map (fun c => c.id) ∧
      out.suspects.map (fun s => s.id) = suspects.map (fun s => s.id) ∧
      out.clues.map (fun c => (c.id, c.discovered, c.examined)) =
        clues.map (fun c => (c.id, c.discovered, c.examined)) ∧
      out.suspects.map (fun s => (s.id, s.isGuilty, s.interviewed)) =
        suspects.map (fun s => (s.id, s.isGuilty, s.interviewed)) ∧
      out.solved = case.solved ∧ out.archived = case.archived ∧
      out.isLLMGenerated = case.isLLMGenerated := by
  have hdb : save_case case clues suspects sol emptyDB =
      { cases := [caseToRow case sol],
        clues := clues.map (clueToRow case.id),
        suspects := suspects.map (suspectToRow case.id),
        clue_analyses := [], suspect_interviews := [] } := by
    unfold save_case emptyDB
    congr 1
    · exact foldl_upsert_clue_rows case.id clues [] hc (by simp)
    · exact foldl_upsert_suspect_rows case.id suspects [] hs (by simp)
  have hfc : (clues.map (clueToRow case.id)).filter (fun r => r.caseId == case.id) =
      clues.map (clueToRow case.id) := by
    apply List.filter_eq_self.mpr
    intro r hr
    rcases List.mem_map.mp hr with ⟨c, hmem, rfl⟩
    simp [clueToRow]
  have hfs : (suspects.map (suspectToRow case.id)).filter (fun r => r.caseId == case.id) =
      suspects.map (suspectToRow case.id) := by
    apply List.filter_eq_self.mpr
    intro r hr
    rcases List.mem_map.mp hr with ⟨s, hmem, rfl⟩
    simp [suspectToRow]
  rw [hdb]
  have hfind : ([caseToRow case sol].find? (fun r => r.id == case.id)) =
      some (caseToRow case sol) := by
    simp [caseToRow]
  refine ⟨⟨case.id, case.title, case.description, case.summary, case.difficulty,
    case.solved, case.archived, case.location, case.dateTime, case.imageUrl,
    case.isLLMGenerated, sol,
    clues.map (fun c => clueRowOut (clueToRow case.id c)),
    suspects.map (fun s => suspectRowOut (suspectToRow case.id s))⟩,
    ?_, ?_, ?_, ?_, ?_, ?_, ?_, ?_⟩
  · unfold get_case_by_id get_case_clues get_case_suspects
    simp only [hfind]
    simp [hfc, hfs, caseToRow, intToBool_boolToInt, List.map_map, Function.comp]
  all_goals
    simp [clueRowOut, clueToRow, suspectRowOut, suspectToRow, List.map_map,
      Function.comp, intToBool_boolToInt]

/-- Witness for C4 at a concrete one-clue, one-suspect bundle. -/
theorem save_get_round_trip_witness :
    ∃ out, get_case_by_id sampleCase.id
        (save_case sampleCase [sampleClue] [sampleSuspect] "sol" emptyDB) = some out ∧
      out.clues.map (fun c => c.id) = [sampleClue].map (fun c => c.id) ∧
      out.suspects.map (fun s => s.id) = [sampleSuspect].map (fun s => s.id) ∧
      out.clues.map (fun c => (c.id, c.discovered, c.examined)) =
        [sampleClue].map (fun c => (c.id, c.discovered, c.examined)) ∧
      out.suspects.map (fun s => (s.id, s.isGuilty, s.interviewed)) =
        [sampleSuspect].map (fun s => (s.id, s.isGuilty, s.interviewed)) ∧
      out.solved = sampleCase.solved ∧ out.archived = sampleCase.archived ∧
      out.isLLMGenerated = sampleCase.isLLMGenerated :=
  save_get_round_trip sampleCase [sampleClue] [sampleSuspect] "sol" (by simp) (by simp)

/-! ## C7 — fuzzy suspect-name resolution in clue-analysis formatting -/

/-- Claim C7: a connection's free-text suspect name is resolved by
case-insensitive substring containment in either direction, first matching
suspect wins; a resolved name yields exactly that one connection, an
unresolved name drops the connection silently (zero connections, no
error); and concretely `"Jamie"` resolves against the canonical suspect
named `"Jamie Chen"` and produces one connection. -/
theorem clue_connection_fuzzy_resolution :
    (∀ (suspects : List Suspect) (name ct d : String) (s : Suspect),
        find_matching_suspect suspects name = some s →
        format_clue_analysis
            (.jobj [("connections", .jarr [.jobj [("suspect", .jstr name),
              ("connectionType", .jstr ct), ("description", .jstr d)]])]) suspects =
          .ok ⟨.jstr "No analysis available", [⟨s.id, .jstr ct, .jstr d⟩],
               [.jstr "Continue investigating"]⟩) ∧
    (∀ (suspects : List Suspect) (name ct d : String),
        find_matching_suspect suspects name = none →
        format_clue_analysis
            (.jobj [("connections", .jarr [.jobj [("suspect", .jstr name),
              ("connectionType", .jstr ct), ("description", .jstr d)]])]) suspects =
          .ok ⟨.jstr "No analysis available", [], [.jstr "Continue investigating"]⟩) ∧
    (∀ (pre post : List Suspect) (s : Suspect) (name : String),
        (∀ t ∈ pre, suspect_name_match name t = false) →
        suspect_name_match name s = true →
        find_matching_suspect (pre ++ s :: post) name = some s) ∧
    (format_clue_analysis (.jobj [("connections", .jarr [.jobj [("suspect", .jstr "Jamie")]])])
        [sampleSuspect] =
      .ok ⟨.jstr "No analysis available", [⟨"sus-1", .jstr "related", .jstr ""⟩],
           [.jstr "Continue investigating"]⟩) := by
  refine ⟨?_, ?_, ?_, rfl⟩
  · intro suspects name ct d s h
    simp [format_clue_analysis, pyGet, objFind, process_clue_connections,
      format_clue_connection, h, PyRes.map, coerce_to_list]
  · intro suspects name ct d h
    simp [format_clue_analysis, pyGet, objFind, process_clue_connections,
      format_clue_connection, h, PyRes.map, coerce_to_list]
  · intro pre post s name hpre hs
    unfold find_matching_suspect
    induction pre with
    | nil =>
      rw [List.nil_append]
      exact List.find?_cons_of_pos _ hs
    | cons t ts ih =>
      have ht := hpre t (List.mem_cons_self t ts)
      rw [List.cons_append, List.find?_cons_of_neg _ (by simp [ht])]
      exact ih (fun u hu => hpre u (List.mem_cons_of_mem t hu))

/-- Witness for C7: with no earlier suspects, `"Jamie"` fuzzy-matches the
canonical suspect named `"Jamie Chen"` and resolution returns it. -/
theorem clue_connection_fuzzy_resolution_witness :
    find_matching_suspect ([] ++ sampleSuspect :: []) "Jamie" = some sampleSuspect :=
  clue_connection_fuzzy_resolution.2.2.1 [] [] sampleSuspect "Jamie"
    (by simp) (by rfl)
